import Mathlib

/-
Verification of the content-structuring and quiz-generation pipeline of the
AI-supported YouTube learning platform.

Shallow embedding of the Python sources:
  * `src/modules.py`     — transcript segmentation (`structure_transcript`),
                           title generation (`generate_module_title`) and the
                           module cache,
  * `src/quizzes.py`     — quiz generation (`CourseDesignerAgent`), the quiz
                           cache (`QuizCache`) and the `get_quiz` entry point,
  * `src/transcriber.py` — the transcription cache and
                           `transcribe_youtube_video`,
  * `src/main.py`        — the `/modules` route composing transcription and
                           segmentation.

Modelling conventions:
  * Segment timestamps (Python floats) are modelled as integers; the code
    only subtracts and compares them, so every statement below is insensitive
    to that choice.
  * External effects (the generative-model HTTP call, yt_dlp metadata lookup,
    the whisper transcription) are passed in as explicit oracle parameters.
  * The SQLite tables are modelled as association lists, newest entry first;
    `INSERT OR REPLACE` removes the row with the same primary key.
  * Python exception paths that the source catches are embedded as the value
    the handler produces; paths the source lets escape are `Except.error`.
-/

namespace YTLP

/-! ## Data model: transcript segments and modules (`src/transcriber.py`, `src/modules.py`)

Only the fields the pipeline reads (`start`, `end`, `text`) are modelled from
`TranscriptSegment`; the remaining whisper metadata fields are never touched
by the code under verification. -/

structure Segment where
  start : Int
  «end» : Int
  text : String
deriving DecidableEq, Repr, Inhabited

structure Module where
  title : String
  content : List Segment
  start_time : Int
  end_time : Int
deriving DecidableEq, Repr, Inhabited

/-! ## Module segmenter (`structure_transcript`, src/modules.py lines 136-176)

The cache-miss body of `structure_transcript` is a fold over the transcript
with accumulator `(modules, current_module)`.  `genTitle` stands for
`generate_module_title`, which is called exactly once per emitted module. -/

def CHUNK_SIZE : Int := 600

/-- Default segment used for the (unreachable) `getLastD` default; Python
indexes `content[-1]` only where `content` is known non-empty. -/
def dummySeg : Segment := ⟨0, 0, ""⟩

/-- Finalize the accumulator exactly as lines 153-155 / 167-169 of
src/modules.py: set `end_time` to the last content segment's `end` and
generate the title from the content. -/
def finalizeModule (genTitle : List Segment → String) (cur : Module) : Module :=
  { cur with end_time := (cur.content.getLastD dummySeg).«end», title := genTitle cur.content }

/-- One iteration of the `for entry in video['transcript']` loop of
`structure_transcript` (src/modules.py lines 146-164). -/
def segStep (genTitle : List Segment → String) (st : List Module × Module)
    (entry : Segment) : List Module × Module :=
  let modules := st.1
  let cur := st.2
  if cur.content.isEmpty then
    (modules, { cur with start_time := entry.start, content := cur.content ++ [entry] })
  else if entry.start - cur.start_time < CHUNK_SIZE then
    (modules, { cur with content := cur.content ++ [entry] })
  else
    (modules ++ [finalizeModule genTitle cur],
     { title := "", content := [entry], start_time := entry.start, end_time := 0 })

/-- The initial accumulator of src/modules.py lines 137-142. -/
def initModule : Module := { title := "", content := [], start_time := 0, end_time := 0 }

/-- The cache-miss path of `structure_transcript` (src/modules.py lines
136-170): the loop over the transcript followed by emission of the trailing
accumulator when it holds content. -/
def structure_transcript_core (genTitle : List Segment → String)
    (transcript : List Segment) : List Module :=
  let res := transcript.foldl (segStep genTitle) ([], initModule)
  if res.2.content.isEmpty then res.1
  else res.1 ++ [finalizeModule genTitle res.2]

/-! ## Generic adjacency predicate used to state ordering invariants. -/

/-- Every adjacent pair of the list satisfies `R` (a structurally recursive,
kernel-computable equivalent of `List.Chain'`). -/
def adjOK {α : Type} (R : α → α → Prop) : List α → Prop
  | [] => True
  | [_] => True
  | a :: b :: l => R a b ∧ adjOK R (b :: l)

instance adjOK.instDecidable {α : Type} (R : α → α → Prop) [DecidableRel R] :
    ∀ l : List α, Decidable (adjOK R l)
  | [] => isTrue trivial
  | [_] => isTrue trivial
  | _ :: b :: l =>
    have : Decidable (adjOK R (b :: l)) := adjOK.instDecidable R (b :: l)
    instDecidableAnd

/-! ## Module invariants (spec section 3, "Module"). -/

/-- The per-module invariant stated by the spec: non-empty content, and
boundary times taken from the first and last content segments. -/
def moduleOk (m : Module) : Prop :=
  m.content ≠ [] ∧ m.start_time = (m.content.headD dummySeg).start
    ∧ m.end_time = (m.content.getLastD dummySeg).«end»

/-- Chronological adjacency of transcript segments: a well-formed transcript
has each segment ending no later than the next one starts. -/
def segAdj (a b : Segment) : Prop := a.«end» ≤ b.start

/-- Non-overlap of consecutive modules in time. -/
def modAdj (m1 m2 : Module) : Prop := m1.end_time ≤ m2.start_time

instance : DecidableRel segAdj := fun a b => inferInstanceAs (Decidable (a.«end» ≤ b.start))

instance : DecidableRel modAdj := fun a b => inferInstanceAs (Decidable (a.end_time ≤ b.start_time))

/-- The accumulator invariant: once seeded, `start_time` is the first content
segment's `start`. -/
def curOk (cur : Module) : Prop :=
  cur.content ≠ [] → cur.start_time = (cur.content.headD dummySeg).start

/-- The spec's transcript ordering invariant (section 3): non-decreasing
`start` across the sequence.  Weaker than `adjOK segAdj`: it permits a
segment to extend past the start of the next one. -/
def startSorted : List Segment → Prop := adjOK fun a b => a.start ≤ b.start

instance : ∀ l, Decidable (startSorted l) :=
  have : DecidableRel fun a b : Segment => a.start ≤ b.start :=
    fun a b => inferInstanceAs (Decidable (a.start ≤ b.start))
  adjOK.instDecidable _

/-- The five-segment transcript used by the spec's boundary example: starts
`[0, 10, 20, 600, 610]`, each segment 10 seconds long. -/
def demoTranscript : List Segment :=
  [⟨0, 10, "s0"⟩, ⟨10, 20, "s1"⟩, ⟨20, 30, "s2"⟩, ⟨600, 610, "s3"⟩, ⟨610, 620, "s4"⟩]


/-! ## Python string primitives used by the title and quiz generators.

Strings are manipulated as their character lists; Python slices and splits
operate on code points, which `List Char` models exactly.  Whitespace is the
ASCII whitespace set recognized by `str.split` / `str.strip` (the transcripts
and titles in play are ASCII). -/

def isPyWs (c : Char) : Bool :=
  c = ' ' || c = '\t' || c = '\n' || c = '\r' || c = '\x0b' || c = '\x0c'

/-- Accumulator-based core of Python `str.split()` with no separator: split on
whitespace runs and drop empty fields. -/
def pySplitAux : List Char → List Char → List (List Char)
  | [], [] => []
  | [], cur => [cur.reverse]
  | c :: rest, cur =>
    if isPyWs c then
      if cur.isEmpty then pySplitAux rest []
      else cur.reverse :: pySplitAux rest []
    else pySplitAux rest (c :: cur)

/-- Python `s.split()`. -/
def pySplit (s : String) : List String :=
  (pySplitAux s.data []).map fun l => String.mk l

/-- Python `s.strip()`. -/
def pyStrip (s : String) : String :=
  String.mk (((s.data.dropWhile fun c => isPyWs c).reverse.dropWhile
    fun c => isPyWs c).reverse)

/-- One character of Python `str.title()`: uppercase a letter that follows a
non-letter, lowercase a letter that follows a letter.  The accumulator holds
the output (reversed) and whether the previous character was cased. -/
def pyTitleStep (acc : List Char × Bool) (c : Char) : List Char × Bool :=
  if c.isAlpha then ((if acc.2 then c.toLower else c.toUpper) :: acc.1, true)
  else (c :: acc.1, false)

/-- Python `s.title()` (ASCII casing). -/
def pyTitle (s : String) : String :=
  String.mk (s.data.foldl pyTitleStep ([], false)).1.reverse

/-- Python `s.rstrip(chars)`. -/
def pyRstrip (s : String) (chars : List Char) : String :=
  String.mk (s.data.reverse.dropWhile (fun c => chars.contains c)).reverse

/-! ## Title generator (`generate_module_title`, src/modules.py lines 179-233). -/

/-- Line 213 of src/modules.py: `' '.join([entry['text'] for entry in content])`. -/
def module_full_text (content : List Segment) : String :=
  String.intercalate " " (content.map Segment.text)

/-- The deterministic fallback of `generate_module_title` (src/modules.py
lines 230-233): first 10 whitespace-delimited words plus an ellipsis when the
text has more than 10 words, otherwise the text itself, unchanged. -/
def title_fallback (full_text : String) : String :=
  let words := pySplit full_text
  if words.length > 10 then String.intercalate " " (words.take 10) ++ "..."
  else full_text

/-- `generate_module_title` (src/modules.py lines 208-233).  The generative
call is abstracted into `llmTitle`: `none` models an API failure, a raised
exception, or an unparseable response (all caught, all reaching the fallback);
`some t` models a successful call whose extracted, stripped content is `t`.
Python's `if title:` also sends the empty string to the fallback. -/
def generate_module_title (llmTitle : Option String) (content : List Segment) : String :=
  let full_text := module_full_text content
  match llmTitle with
  | some title =>
    if title ≠ "" then pyRstrip (pyTitle title) ['.', '!', '?']
    else title_fallback full_text
  | none => title_fallback full_text

/-! ## Quiz generator (`CourseDesignerAgent`, src/quizzes.py lines 219-274). -/

structure Question where
  question : String
  options : List (String × String)
  correct_answer : String
  explanation : String
deriving DecidableEq, Repr, Inhabited

/-- `CourseDesignerAgent._create_fallback_question` (src/quizzes.py lines
268-274); `text[:15]` slices the first 15 code points. -/
def create_fallback_question (text : String) : Question :=
  { question := "What is the main focus of " ++ String.mk (text.data.take 15) ++ "?",
    options := [("A", "Option A"), ("B", "Option B"), ("C", "Option C"), ("D", "Option D")],
    correct_answer := "A",
    explanation := "Fallback question due to generation error." }

/-- Index of the first occurrence of `pat` in the haystack, if any. -/
def findSub (pat : List Char) : List Char → Option Nat
  | [] => if pat.isPrefixOf ([] : List Char) then some 0 else none
  | c :: rest =>
    if pat.isPrefixOf (c :: rest) then some 0
    else (findSub pat rest).map (· + 1)

def jsonOpen : List Char := "```json\n".data

def jsonClose : List Char := "\n```".data

/-- The fenced-JSON extraction of src/quizzes.py line 252,
`re.search(r'```json\n(.*?)\n```', content, re.DOTALL)`: the leftmost
occurrence of the opening fence, then the lazily matched group up to the first
following closing fence. -/
def findJsonBlock (content : List Char) : Option (List Char) :=
  match findSub jsonOpen content with
  | none => none
  | some i =>
    let after := content.drop (i + jsonOpen.length)
    match findSub jsonClose after with
    | none => none
    | some j => some (after.take j)

/-- Outcome of the quiz generative call as observed by
`generate_quiz_questions`: the call returned nothing (`call_nebius_llm` gave
`None`, so the later read of `content` raises and is caught), the response
could not be decoded into a content string (raises, caught), or it produced a
completion string. -/
inductive LLMOutcome where
  | noResponse : LLMOutcome
  | badResponse : LLMOutcome
  | content : String → LLMOutcome
deriving DecidableEq, Repr

/-- `CourseDesignerAgent.generate_quiz_questions` (src/quizzes.py lines
220-266).  `decodeJson` stands for `json.loads` on the extracted block —
`none` when it raises (caught, yielding `[]`).  Every exception path of the
source is inside its `try`, so the model is total. -/
def generate_quiz_questions (decodeJson : String → Option (List Question))
    (llm : LLMOutcome) (text difficulty : String) (num_questions : Int) : List Question :=
  if text = "" ∨ num_questions < 1 then []
  else
    match llm with
    | .noResponse => []
    | .badResponse => []
    | .content c =>
      match findJsonBlock c.data with
      | some block =>
        match decodeJson (String.mk block) with
        | some qs => qs
        | none => []
      | none => [create_fallback_question text]

/-! ## Cache stores.

SQLite tables as association lists, newest row first.  `INSERT OR REPLACE`
drops the row with the same primary key before inserting.  The module cache
key is the result of `extract_video_id`, which can be Python `None`: SQL
`WHERE video_id = NULL` matches no row, and a row inserted under a NULL
primary key conflicts with nothing, so a `none` key never hits. -/

abbrev ModuleCacheMap := List (Option String × List Module)

/-- `get_cached_modules` (src/modules.py lines 64-83): select by key equality;
a `none` (NULL) key matches no row. -/
def get_cached_modules (cache : ModuleCacheMap) (video_id : Option String) :
    Option (List Module) :=
  match video_id with
  | none => none
  | some s => (cache.find? fun e => decide (e.1 = some s)).map fun e => e.2

/-- `save_modules_to_cache` (src/modules.py lines 86-106): upsert by primary
key; a NULL key row replaces nothing. -/
def save_modules_to_cache (cache : ModuleCacheMap) (video_id : Option String)
    (modules : List Module) : ModuleCacheMap :=
  match video_id with
  | none => (none, modules) :: cache
  | some s => (some s, modules) :: cache.filter fun e => !decide (e.1 = some s)

/-- The quiz cache table `module_questions` (src/quizzes.py lines 142-157):
`PRIMARY KEY (video_id, module_title)` — the `difficulty` column is stored in
the value but is not part of the key. -/
abbrev QuizCacheMap := List ((String × String) × (String × List Question))

/-- `QuizCache.get_cached_quiz` (src/quizzes.py lines 159-172): selects the
questions by `(video_id, module_title)` alone; the stored difficulty is
neither filtered on nor returned. -/
def get_cached_quiz (cache : QuizCacheMap) (video_id module_title : String) :
    Option (List Question) :=
  (cache.find? fun e => decide (e.1 = (video_id, module_title))).map fun e => e.2.2

/-- `QuizCache.save_quiz_to_cache` (src/quizzes.py lines 174-191):
`INSERT OR REPLACE` keyed on `(video_id, module_title)` only. -/
def save_quiz_to_cache (cache : QuizCacheMap) (video_id module_title difficulty : String)
    (questions : List Question) : QuizCacheMap :=
  ((video_id, module_title), (difficulty, questions))
    :: cache.filter fun e => !decide (e.1 = (video_id, module_title))

/-! ## Quiz pipeline (`get_quiz` and `generate_all_module_quizzes`,
src/quizzes.py lines 277-360). -/

/-- `get_module_text` (src/quizzes.py lines 105-130): the title when truthy,
then every content segment's text, joined with spaces and stripped. -/
def get_module_text (m : Module) : String :=
  pyStrip (String.intercalate " "
    ((if m.title ≠ "" then [m.title] else []) ++ m.content.map Segment.text))

/-- `generate_all_module_quizzes` (src/quizzes.py lines 309-360).  Raises
`ValueError("No modules found in cache")` when the module cache holds nothing
(or an empty list) for the video; otherwise builds one `(module_title,
questions)` entry per module with non-empty text, saving each to the quiz
cache.  `agentLLM` is the per-module-text generative-call outcome and
`decodeJson` the JSON decoding oracle, threaded into
`generate_quiz_questions` (called with its default `num_questions = 2`). -/
def generate_all_module_quizzes (decodeJson : String → Option (List Question))
    (agentLLM : String → LLMOutcome) (mcache : ModuleCacheMap) (qcache : QuizCacheMap)
    (video_id difficulty : String) :
    Except String (List (String × List Question) × QuizCacheMap) :=
  match get_cached_modules mcache (some video_id) with
  | none => .error "No modules found in cache"
  | some modules =>
    if modules.isEmpty then .error "No modules found in cache"
    else
      .ok (modules.foldl (fun acc m =>
        let module_text := get_module_text m
        if module_text = "" then acc
        else
          let questions := generate_quiz_questions decodeJson (agentLLM module_text)
            module_text difficulty 2
          (acc.1 ++ [(m.title, questions)],
           save_quiz_to_cache acc.2 video_id m.title difficulty questions))
        ([], qcache))

/-- The cache-miss continuation of `get_quiz` (src/quizzes.py lines 301-306):
generate all module quizzes, then return the questions of the first quiz whose
module title matches, or Python `None` when no title matches. -/
def get_quiz_recompute (decodeJson : String → Option (List Question))
    (agentLLM : String → LLMOutcome) (mcache : ModuleCacheMap) (qcache : QuizCacheMap)
    (video_id module_title difficulty : String) :
    Except String (Option (List Question) × QuizCacheMap) :=
  match generate_all_module_quizzes decodeJson agentLLM mcache qcache video_id difficulty with
  | .error e => .error e
  | .ok (quizzes, qcache') =>
    .ok ((quizzes.find? fun q => decide (q.1 = module_title)).map (fun q => q.2), qcache')

/-- `get_quiz` (src/quizzes.py lines 277-306): truthy cache check — `None`
and the empty list both fall through to recomputation. -/
def get_quiz (decodeJson : String → Option (List Question))
    (agentLLM : String → LLMOutcome) (mcache : ModuleCacheMap) (qcache : QuizCacheMap)
    (video_id module_title difficulty : String) :
    Except String (Option (List Question) × QuizCacheMap) :=
  match get_cached_quiz qcache video_id module_title with
  | some cached_questions =>
    if cached_questions.isEmpty then
      get_quiz_recompute decodeJson agentLLM mcache qcache video_id module_title difficulty
    else .ok (some cached_questions, qcache)
  | none => get_quiz_recompute decodeJson agentLLM mcache qcache video_id module_title difficulty

/-! ## Video identifier extraction (`extract_video_id`, src/modules.py lines
109-115): `re.search(r'(?:embed\/|watch\?v=|\/)?([a-zA-Z0-9_-]{11})', url)`,
leftmost match, alternatives tried in order, then the optional group empty. -/

def idChar (c : Char) : Bool := c.isAlpha || c.isDigit || c = '_' || c = '-'

/-- Try one alternative of the optional prefix group at this position: the
prefix followed by exactly 11 identifier characters. -/
def tryPat (pre s : List Char) : Option (List Char) :=
  if pre.isPrefixOf s then
    let cand := (s.drop pre.length).take 11
    if cand.all idChar && cand.length == 11 then some cand else none
  else none

/-- All alternatives of the pattern at one position, in regex order. -/
def tryMatchAt (s : List Char) : Option (List Char) :=
  match tryPat "embed/".data s with
  | some r => some r
  | none =>
    match tryPat "watch?v=".data s with
    | some r => some r
    | none =>
      match tryPat "/".data s with
      | some r => some r
      | none => tryPat [] s

/-- Leftmost position at which the pattern matches. -/
def searchId : List Char → Option (List Char)
  | [] => tryMatchAt []
  | c :: rest =>
    match tryMatchAt (c :: rest) with
    | some r => some r
    | none => searchId rest

def extract_video_id (url : String) : Option String :=
  (searchId url.data).map fun l => String.mk l

/-! ## The `/modules` entry point (src/main.py lines 19-31) with its two cache
tiers (src/transcriber.py, src/modules.py).  `AppState` carries both caches
and counts the external invocations the claims speak about: whisper
transcriptions (the Transcript Provider), segmentation runs, and title
generations (one generative call per emitted module). -/

structure YtInfo where
  id : String
  title : String
  duration : Int
deriving DecidableEq, Repr

structure VideoInfo where
  title : String
  embed_url : String
  duration : Int
  transcript : List Segment
deriving DecidableEq, Repr

structure AppState where
  tcache : List (String × VideoInfo)
  mcache : ModuleCacheMap
  whisperRuns : Nat
  segRuns : Nat
  titleCalls : Nat
deriving DecidableEq, Repr

/-- `transcribe_youtube_video` (src/transcriber.py lines 106-175).
`extractInfo` is the yt_dlp metadata oracle (`none` = raises, caught,
function returns `None`); `whisper` the transcription oracle.  A cached row is
returned as saved (the transcription cache check is a presence check: the
rebuilt dict is always truthy). -/
def transcribe_youtube_video (extractInfo : String → Option YtInfo)
    (whisper : String → List Segment) (url : String) (st : AppState) :
    Option VideoInfo × AppState :=
  match extractInfo url with
  | none => (none, st)
  | some info =>
    match (st.tcache.find? fun e => decide (e.1 = info.id)).map (fun e => e.2) with
    | some cached_result => (some cached_result, st)
    | none =>
      let video_info : VideoInfo :=
        ⟨info.title, "https://www.youtube.com/embed/" ++ info.id, info.duration, whisper url⟩
      (some video_info,
       { st with
          tcache := (info.id, video_info)
            :: st.tcache.filter fun e => !decide (e.1 = info.id),
          whisperRuns := st.whisperRuns + 1 })

/-- The cache-miss path of `structure_transcript` (src/modules.py lines
136-176) at the state level: segment, then save under the extracted id.
Every emitted module received exactly one `generate_module_title` call. -/
def structure_transcript_miss (genTitle : List Segment → String) (video : VideoInfo)
    (video_id : Option String) (st : AppState) : List Module × AppState :=
  let modules := structure_transcript_core genTitle video.transcript
  (modules,
   { st with mcache := save_modules_to_cache st.mcache video_id modules,
             segRuns := st.segRuns + 1,
             titleCalls := st.titleCalls + modules.length })

/-- `structure_transcript` (src/modules.py lines 118-176): truthy cache check
(`if cached_modules:`) — a cached empty list falls through to
recomputation. -/
def structure_transcript (genTitle : List Segment → String) (video : VideoInfo)
    (st : AppState) : List Module × AppState :=
  let video_id := extract_video_id video.embed_url
  match get_cached_modules st.mcache video_id with
  | some cached_modules =>
    if cached_modules.isEmpty then structure_transcript_miss genTitle video video_id st
    else (cached_modules, st)
  | none => structure_transcript_miss genTitle video video_id st

/-- The `/modules` route body (src/main.py lines 19-31), the spec's
`get_modules`: transcribe (cache-checked), then segment (cache-checked).  A
`None` transcription makes `structure_transcript` raise, which the route turns
into an error response — modelled as `none`. -/
def get_modules (extractInfo : String → Option YtInfo) (whisper : String → List Segment)
    (genTitle : List Segment → String) (url : String) (st : AppState) :
    Option (List Module) × AppState :=
  match transcribe_youtube_video extractInfo whisper url st with
  | (none, st') => (none, st')
  | (some video_info, st') =>
    let r := structure_transcript genTitle video_info st'
    (some r.1, r.2)

/-! ## Demo oracles and fixtures for witnesses and counterexamples. -/

def demoEasyQs : List Question :=
  [⟨"easy question", [("A", "a1"), ("B", "b1"), ("C", "c1"), ("D", "d1")], "A", "easy explanation"⟩]

def demoMediumQs : List Question :=
  [⟨"medium question", [("A", "a2"), ("B", "b2"), ("C", "c2"), ("D", "d2")], "A", "medium explanation"⟩]

def demoExtract : String → Option YtInfo := fun _ => some ⟨"abcdefghijk", "Title", 42⟩

def demoWhisper : String → List Segment := fun _ => [⟨0, 10, "hello"⟩]

def demoWhisperEmpty : String → List Segment := fun _ => []

def demoGen : List Segment → String := fun _ => "T"

def demoVideo : VideoInfo :=
  ⟨"Title", "https://www.youtube.com/embed/abcdefghijk", 42, [⟨0, 10, "hello"⟩]⟩

/-- A state whose module cache holds an empty module list for the demo video. -/
def demoEmptyModState : AppState := ⟨[], [(some "abcdefghijk", [])], 0, 0, 0⟩

theorem adjOK_iff_chain' {α : Type} (R : α → α → Prop) :
    ∀ l : List α, adjOK R l ↔ List.Chain' R l
  | [] => by simp [adjOK]
  | [_] => by simp [adjOK]
  | a :: b :: l => by
    rw [List.chain'_cons, adjOK, adjOK_iff_chain' R (b :: l)]

/-! ## Helper lemmas for the segmentation fold. -/

theorem segStep_seed (g : List Segment → String) (ms : List Module) (cur : Module)
    (e : Segment) (h : cur.content.isEmpty) :
    segStep g (ms, cur) e
      = (ms, { cur with start_time := e.start, content := cur.content ++ [e] }) := by
  simp [segStep, h]

theorem segStep_append (g : List Segment → String) (ms : List Module) (cur : Module)
    (e : Segment) (h1 : ¬cur.content.isEmpty) (h2 : e.start - cur.start_time < CHUNK_SIZE) :
    segStep g (ms, cur) e = (ms, { cur with content := cur.content ++ [e] }) := by
  simp [segStep, h1, h2]

theorem segStep_close (g : List Segment → String) (ms : List Module) (cur : Module)
    (e : Segment) (h1 : ¬cur.content.isEmpty) (h2 : ¬e.start - cur.start_time < CHUNK_SIZE) :
    segStep g (ms, cur) e
      = (ms ++ [finalizeModule g cur],
         { title := "", content := [e], start_time := e.start, end_time := 0 }) := by
  simp [segStep, h1, h2]

/-- Fold invariant: segments already distributed over emitted modules plus the
accumulator content equal the processed prefix of the transcript. -/
theorem segFold_concat (g : List Segment → String) :
    ∀ (l : List Segment) (ms : List Module) (cur : Module),
      ((l.foldl (segStep g) (ms, cur)).1.map Module.content).flatten
          ++ (l.foldl (segStep g) (ms, cur)).2.content
        = (ms.map Module.content).flatten ++ cur.content ++ l
  | [], ms, cur => by simp
  | e :: l, ms, cur => by
    rw [List.foldl_cons]
    by_cases h1 : cur.content.isEmpty
    · rw [segStep_seed g ms cur e h1, segFold_concat g l]
      simp
    · by_cases h2 : e.start - cur.start_time < CHUNK_SIZE
      · rw [segStep_append g ms cur e h1 h2, segFold_concat g l]
        simp
      · rw [segStep_close g ms cur e h1 h2, segFold_concat g l]
        simp [finalizeModule]

/-- A segment sequence is assembled exactly once from the emitted modules. -/
theorem structure_concat (g : List Segment → String) (transcript : List Segment) :
    ((structure_transcript_core g transcript).map Module.content).flatten = transcript := by
  have h := segFold_concat g transcript [] initModule
  unfold structure_transcript_core
  dsimp only
  split
  · rename_i hemp
    rw [List.isEmpty_iff] at hemp
    rw [hemp] at h
    simpa [initModule] using h
  · simpa [initModule, finalizeModule] using h

theorem headD_append_of_ne_nil {α : Type} (l l' : List α) (d : α) (h : l ≠ []) :
    (l ++ l').headD d = l.headD d := by
  cases l with
  | nil => exact absurd rfl h
  | cons a t => rfl

theorem finalize_ok (g : List Segment → String) (cur : Module)
    (h1 : cur.content ≠ []) (h2 : curOk cur) : moduleOk (finalizeModule g cur) :=
  ⟨h1, h2 h1, rfl⟩

/-- The segmentation fold keeps every emitted module `moduleOk` and keeps the
accumulator `curOk`. -/
theorem segFold_ok (g : List Segment → String) :
    ∀ (l : List Segment) (ms : List Module) (cur : Module),
      (∀ m ∈ ms, moduleOk m) → curOk cur →
      (∀ m ∈ (l.foldl (segStep g) (ms, cur)).1, moduleOk m)
        ∧ curOk (l.foldl (segStep g) (ms, cur)).2
  | [], ms, cur, hms, hcur => ⟨hms, hcur⟩
  | e :: l, ms, cur, hms, hcur => by
    rw [List.foldl_cons]
    by_cases h1 : cur.content.isEmpty
    · rw [segStep_seed g ms cur e h1]
      refine segFold_ok g l _ _ hms ?_
      rw [List.isEmpty_iff] at h1
      intro _
      simp [h1]
    · by_cases h2 : e.start - cur.start_time < CHUNK_SIZE
      · rw [segStep_append g ms cur e h1 h2]
        refine segFold_ok g l _ _ hms ?_
        intro _
        rw [List.isEmpty_iff] at h1
        dsimp only
        rw [headD_append_of_ne_nil _ _ _ h1]
        exact hcur h1
      · rw [segStep_close g ms cur e h1 h2]
        refine segFold_ok g l _ _ ?_ ?_
        · intro m hm
          rcases List.mem_append.mp hm with h | h
          · exact hms m h
          · rw [List.mem_singleton] at h
            subst h
            rw [List.isEmpty_iff] at h1
            exact finalize_ok g cur h1 hcur
        · intro _
          simp

/-- Every module emitted by the segmenter satisfies the module invariant. -/
theorem structure_modulesOk (g : List Segment → String) (t : List Segment) :
    ∀ m ∈ structure_transcript_core g t, moduleOk m := by
  obtain ⟨hms, hcur⟩ := segFold_ok g t [] initModule (by simp)
    (by intro h; simp [initModule] at h)
  unfold structure_transcript_core
  dsimp only
  split
  · exact hms
  · rename_i hne
    intro m hm
    rcases List.mem_append.mp hm with h | h
    · exact hms m h
    · rw [List.mem_singleton] at h
      subst h
      rw [List.isEmpty_iff] at hne
      exact finalize_ok g _ hne hcur

/-- From the cross-adjacency chain between consecutive module contents, the
modules themselves are non-overlapping in time. -/
theorem chain_cross_to_modAdj :
    ∀ (ms : List Module), (∀ m ∈ ms, moduleOk m) →
      List.Chain' (fun m1 m2 => ∀ x ∈ m1.content.getLast?, ∀ y ∈ m2.content.head?,
        segAdj x y) ms →
      List.Chain' modAdj ms
  | [], _, _ => List.chain'_nil
  | [m], _, _ => List.chain'_singleton m
  | m1 :: m2 :: tl, hok, hch => by
    rw [List.chain'_cons] at hch ⊢
    obtain ⟨hr, htl⟩ := hch
    refine ⟨?_, chain_cross_to_modAdj (m2 :: tl)
      (fun m hm => hok m (List.mem_cons_of_mem _ hm)) htl⟩
    obtain ⟨hne1, -, hen1⟩ := hok m1 (by simp)
    obtain ⟨hne2, hst2, -⟩ := hok m2 (by simp)
    obtain ⟨x, xs, hx⟩ := List.exists_cons_of_ne_nil hne2
    obtain ⟨y, hy⟩ := Option.isSome_iff_exists.mp (List.getLast?_isSome.mpr hne1)
    have hadj := hr y hy x (by rw [hx]; rfl)
    show m1.end_time ≤ m2.start_time
    rw [hen1, hst2, hx, List.getLastD_eq_getLast?, hy]
    simpa [segAdj] using hadj

/-- A chronologically sorted, well-formed segment run starts no later than it
ends. -/
theorem chain_head_le_last :
    ∀ (l : List Segment), l ≠ [] → List.Chain' segAdj l →
      (∀ s ∈ l, s.start ≤ s.«end») →
      (l.headD dummySeg).start ≤ (l.getLastD dummySeg).«end»
  | [], h, _, _ => absurd rfl h
  | [a], _, _, hwf => hwf a (by simp)
  | a :: b :: tl, _, hch, hwf => by
    rw [List.chain'_cons] at hch
    have h1 : a.start ≤ a.«end» := hwf a (by simp)
    have h2 : a.«end» ≤ b.start := hch.1
    have h3 := chain_head_le_last (b :: tl) (by simp) hch.2
      (fun s hs => hwf s (List.mem_cons_of_mem _ hs))
    simp only [List.headD_cons] at h3 ⊢
    calc a.start ≤ b.start := le_trans h1 h2
    _ ≤ _ := by simpa [List.getLastD] using h3

/-! ## Claim theorems for the segmenter. -/

/-- Claim C2: for every ordered segment sequence given to the segmenter on a
cache miss, the concatenation of the emitted modules' `content`, in emission
order, is exactly the input sequence (same segments, same order, none dropped
or duplicated), and the empty transcript yields no modules. -/
theorem claim_C2 (g : List Segment → String) (t : List Segment) :
    ((structure_transcript_core g t).map Module.content).flatten = t
      ∧ structure_transcript_core g [] = [] :=
  ⟨structure_concat g t, rfl⟩

/-- Claim C3, amended: the transcript's segments must themselves be
non-overlapping — each segment ends no later than the next one starts (which
strengthens the spec's bare non-decreasing-`start` invariant) and spans
forward in time.  Under that assumption every emitted module has non-empty
`content`, `start_time = content[0].start`, `end_time = content[last].end`
and a non-negative span; the modules partition the transcript exactly once
and consecutive modules do not overlap in time. -/
theorem claim_C3 (g : List Segment → String) (t : List Segment)
    (hsort : adjOK segAdj t) (hwf : ∀ s ∈ t, s.start ≤ s.«end») :
    (∀ m ∈ structure_transcript_core g t,
        m.content ≠ [] ∧ m.start_time = (m.content.headD dummySeg).start
          ∧ m.end_time = (m.content.getLastD dummySeg).«end»
          ∧ m.start_time ≤ m.end_time)
      ∧ ((structure_transcript_core g t).map Module.content).flatten = t
      ∧ adjOK modAdj (structure_transcript_core g t) := by
  have hok := structure_modulesOk g t
  have hflat := structure_concat g t
  rw [adjOK_iff_chain'] at hsort
  have hchain : List.Chain' segAdj
      (((structure_transcript_core g t).map Module.content).flatten) := by
    rw [hflat]; exact hsort
  have hnil : [] ∉ (structure_transcript_core g t).map Module.content := by
    intro hmem
    obtain ⟨m, hm, hc⟩ := List.mem_map.mp hmem
    exact (hok m hm).1 hc
  obtain ⟨hin, hcross⟩ := (List.chain'_flatten hnil).mp hchain
  refine ⟨?_, hflat, ?_⟩
  · intro m hm
    obtain ⟨hne, hst, hen⟩ := hok m hm
    refine ⟨hne, hst, hen, ?_⟩
    have hchm : List.Chain' segAdj m.content := hin m.content (List.mem_map_of_mem _ hm)
    have hwfm : ∀ s ∈ m.content, s.start ≤ s.«end» := by
      intro s hs
      refine hwf s ?_
      rw [← hflat]
      exact List.mem_flatten.mpr ⟨m.content, List.mem_map_of_mem _ hm, hs⟩
    rw [hst, hen]
    exact chain_head_le_last m.content hne hchm hwfm
  · rw [adjOK_iff_chain']
    exact chain_cross_to_modAdj _ hok ((List.chain'_map _).mp hcross)

/-- Witness for C3 at the concrete five-segment example transcript. -/
theorem claim_C3_witness :
    adjOK modAdj (structure_transcript_core (fun _ => "T") demoTranscript) :=
  (claim_C3 (fun _ => "T") demoTranscript (by decide) (by decide)).2.2

/-- Counterexample to claim C3 as stated: under the spec's transcript
invariant alone — non-decreasing `start`, each segment spanning forward — the
emitted modules need not be non-overlapping.  The spec-valid transcript
`(0,700), (600,650)` is split into the modules `(0,700)` and `(600,650)`,
whose time intervals overlap. -/
theorem claim_C3_counterexample :
    startSorted [⟨0, 700, "a"⟩, ⟨600, 650, "b"⟩]
      ∧ (∀ s ∈ [(⟨0, 700, "a"⟩ : Segment), ⟨600, 650, "b"⟩], s.start ≤ s.«end»)
      ∧ (structure_transcript_core (fun _ => "T") [⟨0, 700, "a"⟩, ⟨600, 650, "b"⟩]).map
          (fun m => (m.start_time, m.end_time)) = [(0, 700), (600, 650)]
      ∧ ¬adjOK modAdj (structure_transcript_core (fun _ => "T") [⟨0, 700, "a"⟩, ⟨600, 650, "b"⟩]) :=
  ⟨by decide, by decide, rfl, by decide⟩

/-- Claim C4: with `CHUNK_SIZE = 600`, segmenting starts `[0,10,20,600,610]`
(each segment 10 s long) yields exactly two modules — the first three segments
with `start_time = 0` and the last two with `start_time = 600` — because the
accumulation test `segment.start - start_time < CHUNK_SIZE` is strict, so the
segment whose offset equals `CHUNK_SIZE` exactly closes the current module.
Holds for every title generator. -/
theorem claim_C4 (g : List Segment → String) :
    (structure_transcript_core g demoTranscript).map (fun m => (m.content, m.start_time))
        = [([⟨0, 10, "s0"⟩, ⟨10, 20, "s1"⟩, ⟨20, 30, "s2"⟩], 0),
           ([⟨600, 610, "s3"⟩, ⟨610, 620, "s4"⟩], 600)]
      ∧ (structure_transcript_core g demoTranscript).length = 2 :=
  ⟨rfl, rfl⟩

/-! ## Claim theorems for the generators. -/

/-- Claim C5, amended: on model failure, title generation falls back
deterministically — more than 10 whitespace-delimited words give the first 10
joined by single spaces plus an ellipsis; 10 or fewer words return the input
text unchanged (the source performs no trimming); in particular the title for
"This is a test sentence." is exactly that sentence. -/
theorem claim_C5 (content : List Segment) :
    ((pySplit (module_full_text content)).length > 10 →
        generate_module_title none content
          = String.intercalate " " ((pySplit (module_full_text content)).take 10) ++ "...")
      ∧ ((pySplit (module_full_text content)).length ≤ 10 →
        generate_module_title none content = module_full_text content)
      ∧ generate_module_title none [⟨0, 1, "This is a test sentence."⟩]
          = "This is a test sentence." := by
  refine ⟨?_, ?_, by decide⟩
  · intro h
    simp [generate_module_title, title_fallback, h]
  · intro h
    simp [generate_module_title, title_fallback, Nat.not_lt.mpr h]

/-- Witness for C5: the two fallback branches at the spec's own examples —
the 5-word sentence comes back unchanged, a 12-word text is cut to its first
10 words plus an ellipsis. -/
theorem claim_C5_witness :
    generate_module_title none
        [⟨0, 1, "one two three four five six seven eight nine ten eleven twelve"⟩]
      = "one two three four five six seven eight nine ten..."
      ∧ generate_module_title none [⟨0, 1, "This is a test sentence."⟩]
          = "This is a test sentence." := by
  constructor
  · rw [(claim_C5 [⟨0, 1, "one two three four five six seven eight nine ten eleven twelve"⟩]).1
      (by decide)]
    decide
  · exact (claim_C5 []).2.2

/-- Counterexample to claim C5 as stated: with 10 or fewer words the source
returns the joined text unchanged, not trimmed of surrounding whitespace —
on the one-word text `" hi "` the claimed result is the trimmed `"hi"` but the
code returns `" hi "`. -/
theorem claim_C5_counterexample :
    generate_module_title none [⟨0, 1, " hi "⟩] = " hi "
      ∧ pyStrip " hi " = "hi"
      ∧ generate_module_title none [⟨0, 1, " hi "⟩] ≠ pyStrip " hi " := by
  decide

/-- Claim C7: when the model call succeeds but the completion has no fenced
JSON block, `generate_quiz_questions` returns exactly one fallback question:
its prompt is templated over the first 15 characters of the input text, its
options carry exactly the keys A, B, C, D, its correct answer is "A" and its
explanation marks it as a fallback. -/
theorem claim_C7 (decodeJson : String → Option (List Question))
    (text difficulty c : String) (n : Int)
    (htext : text ≠ "") (hn : 1 ≤ n) (hnoblock : findJsonBlock c.data = none) :
    generate_quiz_questions decodeJson (.content c) text difficulty n
        = [create_fallback_question text]
      ∧ (create_fallback_question text).question
          = "What is the main focus of " ++ String.mk (text.data.take 15) ++ "?"
      ∧ (create_fallback_question text).options.map Prod.fst = ["A", "B", "C", "D"]
      ∧ (create_fallback_question text).correct_answer = "A"
      ∧ (create_fallback_question text).explanation
          = "Fallback question due to generation error." := by
  refine ⟨?_, rfl, rfl, rfl, rfl⟩
  simp [generate_quiz_questions, htext, Int.not_lt.mpr hn, hnoblock]

/-- Witness for C7 on a concrete unfenced completion. -/
theorem claim_C7_witness :
    generate_quiz_questions (fun _ => none) (.content "no fenced block here")
        "sample text" "easy" 2
      = [create_fallback_question "sample text"] :=
  (claim_C7 (fun _ => none) "sample text" "easy" "no fenced block here" 2
    (by decide) (by decide) (by decide)).1

/-- Claim C8: `generate_quiz_questions` never propagates a failure — empty
text or a count below 1 yield `[]` for every model outcome (no call is
consulted), a failed call yields `[]`, an undecodable response yields `[]`,
and a fenced block whose JSON parse raises yields `[]`. -/
theorem claim_C8 (decodeJson : String → Option (List Question))
    (llm : LLMOutcome) (text difficulty : String) (n : Int) :
    ((text = "" ∨ n < 1) → generate_quiz_questions decodeJson llm text difficulty n = [])
      ∧ generate_quiz_questions decodeJson .noResponse text difficulty n = []
      ∧ generate_quiz_questions decodeJson .badResponse text difficulty n = []
      ∧ (∀ c block, llm = .content c → findJsonBlock c.data = some block →
          decodeJson (String.mk block) = none →
          generate_quiz_questions decodeJson llm text difficulty n = []) := by
  refine ⟨?_, ?_, ?_, ?_⟩
  · intro h
    simp [generate_quiz_questions, h]
  · by_cases h : text = "" ∨ n < 1 <;> simp [generate_quiz_questions, h]
  · by_cases h : text = "" ∨ n < 1 <;> simp [generate_quiz_questions, h]
  · intro c block hc hblock hdecode
    subst hc
    by_cases h : text = "" ∨ n < 1
    · simp [generate_quiz_questions, h]
    · simp [generate_quiz_questions, h, hblock, hdecode]

/-- Witness for C8: empty text returns `[]` even with a model outcome that
would otherwise parse. -/
theorem claim_C8_witness :
    generate_quiz_questions (fun _ => none) (.content "x") "" "medium" 2 = [] :=
  (claim_C8 (fun _ => none) (.content "x") "" "medium" 2).1 (Or.inl rfl)

/-! ## Claim theorems for the caches and entry points. -/

/-- Claim C1 (refuting the spec): the quiz cache's primary key is
`(video_id, module_title)` — difficulty is excluded both from the key and
from the lookup — so caching the same video and module at "easy" and then at
"medium" leaves a single row, and the lookup (also a `get_quiz` call asking
for "easy") returns the questions stored for "medium". -/
theorem claim_C1 :
    (save_quiz_to_cache (save_quiz_to_cache [] "v" "m" "easy" demoEasyQs)
        "v" "m" "medium" demoMediumQs).length = 1
      ∧ get_cached_quiz (save_quiz_to_cache (save_quiz_to_cache [] "v" "m" "easy" demoEasyQs)
          "v" "m" "medium" demoMediumQs) "v" "m" = some demoMediumQs
      ∧ get_quiz (fun _ => none) (fun _ => .noResponse) []
          (save_quiz_to_cache (save_quiz_to_cache [] "v" "m" "easy" demoEasyQs)
            "v" "m" "medium" demoMediumQs) "v" "m" "easy"
          = .ok (some demoMediumQs,
              save_quiz_to_cache (save_quiz_to_cache [] "v" "m" "easy" demoEasyQs)
                "v" "m" "medium" demoMediumQs)
      ∧ demoMediumQs ≠ demoEasyQs :=
  ⟨by decide, rfl, rfl, by decide⟩

/-- Claim C9: a `get_quiz` call for a video with no cached quiz entry and no
cached module sequence raises (`ValueError("No modules found in cache")`),
never silently succeeding. -/
theorem claim_C9 (decodeJson : String → Option (List Question))
    (agentLLM : String → LLMOutcome) (mcache : ModuleCacheMap) (qcache : QuizCacheMap)
    (video_id module_title difficulty : String)
    (hq : get_cached_quiz qcache video_id module_title = none)
    (hm : get_cached_modules mcache (some video_id) = none) :
    get_quiz decodeJson agentLLM mcache qcache video_id module_title difficulty
      = .error "No modules found in cache" := by
  simp [get_quiz, hq, get_quiz_recompute, generate_all_module_quizzes, hm]

/-- Witness for C9 at empty caches. -/
theorem claim_C9_witness :
    get_quiz (fun _ => none) (fun _ => .noResponse) [] [] "v" "m" "easy"
      = .error "No modules found in cache" :=
  claim_C9 (fun _ => none) (fun _ => .noResponse) [] [] "v" "m" "easy" rfl rfl

/-- Claim C10: both cache lookups are truthiness checks, so a cached empty
list is treated as a miss — `structure_transcript` recomputes (its result is
the fresh segmentation and the segmentation counter advances) and `get_quiz`
falls through to the recomputation path. -/
theorem claim_C10 (genTitle : List Segment → String) (video : VideoInfo) (st : AppState)
    (decodeJson : String → Option (List Question)) (agentLLM : String → LLMOutcome)
    (mcache : ModuleCacheMap) (qcache : QuizCacheMap) (video_id module_title difficulty : String)
    (hmod : get_cached_modules st.mcache (extract_video_id video.embed_url) = some [])
    (hquiz : get_cached_quiz qcache video_id module_title = some []) :
    (structure_transcript genTitle video st).1
        = structure_transcript_core genTitle video.transcript
      ∧ (structure_transcript genTitle video st).2.segRuns = st.segRuns + 1
      ∧ get_quiz decodeJson agentLLM mcache qcache video_id module_title difficulty
          = get_quiz_recompute decodeJson agentLLM mcache qcache video_id module_title
              difficulty := by
  refine ⟨?_, ?_, ?_⟩
  · simp [structure_transcript, hmod, structure_transcript_miss]
  · simp [structure_transcript, hmod, structure_transcript_miss]
  · simp [get_quiz, hquiz]

/-- Witness for C10: with an empty module list cached for the demo video, the
lookup recomputes instead of returning the cached `[]`. -/
theorem claim_C10_witness :
    (structure_transcript demoGen demoVideo demoEmptyModState).1
        = structure_transcript_core demoGen demoVideo.transcript
      ∧ (structure_transcript demoGen demoVideo demoEmptyModState).2.segRuns = 1 :=
  have h := claim_C10 demoGen demoVideo demoEmptyModState (fun _ => none)
    (fun _ => .noResponse) [] [(("v", "m"), ("easy", []))] "v" "m" "easy"
    (by decide) (by decide)
  ⟨h.1, h.2.1⟩

/-! ## Step lemmas for the `/modules` entry point. -/

theorem transcribe_hit (E : String → Option YtInfo) (W : String → List Segment)
    (url : String) (st : AppState) (info : YtInfo) (vinfo : VideoInfo)
    (hinfo : E url = some info)
    (hcache : (st.tcache.find? fun e => decide (e.1 = info.id)).map (fun e => e.2)
      = some vinfo) :
    transcribe_youtube_video E W url st = (some vinfo, st) := by
  simp [transcribe_youtube_video, hinfo, hcache]

theorem transcribe_miss (E : String → Option YtInfo) (W : String → List Segment)
    (url : String) (st : AppState) (info : YtInfo)
    (hinfo : E url = some info)
    (hcache : (st.tcache.find? fun e => decide (e.1 = info.id)).map (fun e => e.2)
      = none) :
    transcribe_youtube_video E W url st
      = (some ⟨info.title, "https://www.youtube.com/embed/" ++ info.id, info.duration, W url⟩,
         { st with
            tcache := (info.id, ⟨info.title, "https://www.youtube.com/embed/" ++ info.id,
                info.duration, W url⟩) :: st.tcache.filter fun e => !decide (e.1 = info.id),
            whisperRuns := st.whisperRuns + 1 }) := by
  simp [transcribe_youtube_video, hinfo, hcache]

theorem structure_transcript_hit (G : List Segment → String) (video : VideoInfo)
    (st : AppState) (ms : List Module)
    (h : get_cached_modules st.mcache (extract_video_id video.embed_url) = some ms)
    (hne : ms ≠ []) : structure_transcript G video st = (ms, st) := by
  simp [structure_transcript, h, List.isEmpty_iff, hne]

theorem structure_transcript_notfound (G : List Segment → String) (video : VideoInfo)
    (st : AppState)
    (h : get_cached_modules st.mcache (extract_video_id video.embed_url) = none) :
    structure_transcript G video st
      = structure_transcript_miss G video (extract_video_id video.embed_url) st := by
  simp [structure_transcript, h]

theorem get_modules_eq (E : String → Option YtInfo) (W : String → List Segment)
    (G : List Segment → String) (url : String) (st st' : AppState) (vinfo : VideoInfo)
    (h : transcribe_youtube_video E W url st = (some vinfo, st')) :
    get_modules E W G url st
      = (some (structure_transcript G vinfo st').1, (structure_transcript G vinfo st').2) := by
  unfold get_modules
  rw [h]

/-- Claim C6, amended: starting from fresh caches, calling the `/modules`
entry point twice with the same valid video reference — provided the first
call yields a non-empty module sequence — invokes whisper once and the
segmenter once in total; the second call returns the same value and leaves
the whole state (caches and all invocation counters, including the title
generations) untouched, so the cache-hit path makes zero Transcript Provider
calls and zero generative-model calls. -/
theorem claim_C6 (extractInfo : String → Option YtInfo) (whisper : String → List Segment)
    (genTitle : List Segment → String) (url : String) (info : YtInfo) (vid : String)
    (hinfo : extractInfo url = some info)
    (hvid : extract_video_id ("https://www.youtube.com/embed/" ++ info.id) = some vid)
    (hne : structure_transcript_core genTitle (whisper url) ≠ []) :
    get_modules extractInfo whisper genTitle url
        (get_modules extractInfo whisper genTitle url ⟨[], [], 0, 0, 0⟩).2
      = get_modules extractInfo whisper genTitle url ⟨[], [], 0, 0, 0⟩
      ∧ (get_modules extractInfo whisper genTitle url ⟨[], [], 0, 0, 0⟩).1
          = some (structure_transcript_core genTitle (whisper url))
      ∧ (get_modules extractInfo whisper genTitle url ⟨[], [], 0, 0, 0⟩).2.whisperRuns = 1
      ∧ (get_modules extractInfo whisper genTitle url ⟨[], [], 0, 0, 0⟩).2.segRuns = 1
      ∧ (get_modules extractInfo whisper genTitle url ⟨[], [], 0, 0, 0⟩).2.titleCalls
          = (structure_transcript_core genTitle (whisper url)).length := by
  have e1 := transcribe_miss extractInfo whisper url ⟨[], [], 0, 0, 0⟩ info hinfo (by simp)
  have e2 : structure_transcript genTitle
      ⟨info.title, "https://www.youtube.com/embed/" ++ info.id, info.duration, whisper url⟩
      ⟨[(info.id, ⟨info.title, "https://www.youtube.com/embed/" ++ info.id,
          info.duration, whisper url⟩)], [], 1, 0, 0⟩
      = (structure_transcript_core genTitle (whisper url),
         ⟨[(info.id, ⟨info.title, "https://www.youtube.com/embed/" ++ info.id,
             info.duration, whisper url⟩)],
          [(some vid, structure_transcript_core genTitle (whisper url))], 1, 1,
          (structure_transcript_core genTitle (whisper url)).length⟩) := by
    rw [structure_transcript_notfound genTitle _ _ (by simp [hvid, get_cached_modules])]
    simp [structure_transcript_miss, hvid, save_modules_to_cache]
  have g1 : get_modules extractInfo whisper genTitle url ⟨[], [], 0, 0, 0⟩
      = (some (structure_transcript_core genTitle (whisper url)),
         ⟨[(info.id, ⟨info.title, "https://www.youtube.com/embed/" ++ info.id,
             info.duration, whisper url⟩)],
          [(some vid, structure_transcript_core genTitle (whisper url))], 1, 1,
          (structure_transcript_core genTitle (whisper url)).length⟩) := by
    rw [get_modules_eq extractInfo whisper genTitle url _ _ _ (by simpa using e1), e2]
  have e3 := transcribe_hit extractInfo whisper url
    ⟨[(info.id, ⟨info.title, "https://www.youtube.com/embed/" ++ info.id,
        info.duration, whisper url⟩)],
     [(some vid, structure_transcript_core genTitle (whisper url))], 1, 1,
     (structure_transcript_core genTitle (whisper url)).length⟩ info
    ⟨info.title, "https://www.youtube.com/embed/" ++ info.id, info.duration, whisper url⟩
    hinfo (by simp)
  have e4 : structure_transcript genTitle
      ⟨info.title, "https://www.youtube.com/embed/" ++ info.id, info.duration, whisper url⟩
      ⟨[(info.id, ⟨info.title, "https://www.youtube.com/embed/" ++ info.id,
          info.duration, whisper url⟩)],
       [(some vid, structure_transcript_core genTitle (whisper url))], 1, 1,
       (structure_transcript_core genTitle (whisper url)).length⟩
      = (structure_transcript_core genTitle (whisper url),
         ⟨[(info.id, ⟨info.title, "https://www.youtube.com/embed/" ++ info.id,
             info.duration, whisper url⟩)],
          [(some vid, structure_transcript_core genTitle (whisper url))], 1, 1,
          (structure_transcript_core genTitle (whisper url)).length⟩) := by
    exact structure_transcript_hit genTitle _ _ _ (by simp [hvid, get_cached_modules]) hne
  have g2 : get_modules extractInfo whisper genTitle url
      ⟨[(info.id, ⟨info.title, "https://www.youtube.com/embed/" ++ info.id,
          info.duration, whisper url⟩)],
       [(some vid, structure_transcript_core genTitle (whisper url))], 1, 1,
       (structure_transcript_core genTitle (whisper url)).length⟩
      = (some (structure_transcript_core genTitle (whisper url)),
         ⟨[(info.id, ⟨info.title, "https://www.youtube.com/embed/" ++ info.id,
             info.duration, whisper url⟩)],
          [(some vid, structure_transcript_core genTitle (whisper url))], 1, 1,
          (structure_transcript_core genTitle (whisper url)).length⟩) := by
    rw [get_modules_eq extractInfo whisper genTitle url _ _ _ e3, e4]
  rw [g1]
  exact ⟨g2, rfl, rfl, rfl, rfl⟩

/-- Witness for C6 with concrete demo oracles: the second call leaves the
state unchanged and one segmentation ran in total. -/
theorem claim_C6_witness :
    get_modules demoExtract demoWhisper demoGen "u"
        (get_modules demoExtract demoWhisper demoGen "u" ⟨[], [], 0, 0, 0⟩).2
      = get_modules demoExtract demoWhisper demoGen "u" ⟨[], [], 0, 0, 0⟩
      ∧ (get_modules demoExtract demoWhisper demoGen "u" ⟨[], [], 0, 0, 0⟩).2.segRuns = 1 :=
  have h := claim_C6 demoExtract demoWhisper demoGen "u" ⟨"abcdefghijk", "Title", 42⟩
    "abcdefghijk" rfl (by decide) (by decide)
  ⟨h.1, h.2.2.2.1⟩

/-- Counterexample to claim C6 as stated: a video whose transcript is empty
caches an empty module list, which the truthiness check treats as a miss, so
the Module Segmenter runs again on the second call — twice in total — even
though nothing cleared the cache (whisper still runs only once, and both
calls return the same empty result). -/
theorem claim_C6_counterexample :
    (get_modules demoExtract demoWhisperEmpty demoGen "u"
        (get_modules demoExtract demoWhisperEmpty demoGen "u" ⟨[], [], 0, 0, 0⟩).2).2.segRuns = 2
      ∧ (get_modules demoExtract demoWhisperEmpty demoGen "u" ⟨[], [], 0, 0, 0⟩).2.segRuns = 1
      ∧ (get_modules demoExtract demoWhisperEmpty demoGen "u"
          (get_modules demoExtract demoWhisperEmpty demoGen "u" ⟨[], [], 0, 0, 0⟩).2).2.whisperRuns = 1
      ∧ (get_modules demoExtract demoWhisperEmpty demoGen "u"
            (get_modules demoExtract demoWhisperEmpty demoGen "u" ⟨[], [], 0, 0, 0⟩).2).1
          = (get_modules demoExtract demoWhisperEmpty demoGen "u" ⟨[], [], 0, 0, 0⟩).1 := by
  refine ⟨by decide, by decide, by decide, rfl⟩

end YTLP
